import Mathlib

/-!
Verification of the CryptoClipboard core: a shallow embedding of
`src/crypto_manager.py`, `src/clipboard_manager.py` and the duration-checking
entry point of `cli_main.py`, with theorems settling the specification claims.

Modelling conventions:
* The third-party `cryptography` library (PBKDF2HMAC + Fernet) is modelled as an
  ideal deterministic KDF and an ideal authenticated symmetric cipher: the
  derived key is represented by the `(password, salt)` pair (PBKDF2 is
  deterministic in these and is idealized as collision-free), and a Fernet
  token authenticates its key, so decryption succeeds exactly when the token
  was produced under the same key.  The spec itself notes that adversarial
  collisions against the authentication tag are an accepted limitation.
* Clipboard text is the inductive type `Text`: either an ordinary string or the
  url-safe-base64 encoding of a Fernet token (`Text.enc key nonce plaintext`).
  Encoding is injective, so `Text` carries decidable equality.
* `pyperclip.paste` / `pyperclip.copy` are external effects; each operation
  takes the observed read result (`Except Unit Text`, error = raised exception)
  and a `writeOk : Bool` (whether `pyperclip.copy` raises) as inputs and
  returns the clipboard write it performed (if any) and the list of callback
  events it fired, in order.  Callbacks are modelled as events, not code, and
  hence never raise.
* `time.time()` is passed in as `now : Nat` (seconds); fresh Fernet nonces are
  passed in as `nonce : Nat`.
-/

namespace CryptoClipboard

/-- Key material of a session.  `set_password` in `crypto_manager.py` derives a
32-byte key with `PBKDF2HMAC(SHA256, iterations = 100000)` from the password
and a 16-byte salt; the derivation is deterministic in `(password, salt)` and
is idealized here as the pair itself (distinct passwords under the same salt
give distinct keys). -/
structure FernetKey where
  password : String
  salt : List Nat
deriving DecidableEq

/-- Clipboard text: either an ordinary string, or the url-safe-base64 encoding
of a Fernet token that encrypts `plaintext` under `key` with a fresh `nonce`
(this is exactly what `CryptoManager.encrypt` returns).  The encoding is
injective and a token is self-authenticating. -/
inductive Text where
  | str : String → Text
  | enc : FernetKey → Nat → Text → Text
deriving DecidableEq

/-- Errors raised by `CryptoManager` (both are `ValueError` in the source, with
distinct messages: "请先设置密码" for a missing session and "解密失败: ..." for a
failed decrypt). -/
inductive CryptoErr where
  | noSession
  | decryptionError
deriving DecidableEq

/-- State of `CryptoManager`: `cipher_suite` is `None` until `set_password` is
called, then `Fernet(key)` for the derived key. -/
structure CryptoManager where
  cipher_suite : Option FernetKey
deriving DecidableEq

/-- Embeds `CryptoManager.set_password` (crypto_manager.py lines 18-41) for an
explicitly supplied salt; the `salt is None` branch draws 16 fresh random bytes
from `os.urandom`, which the caller of this model supplies instead.  Returns
the new manager state and the salt used. -/
def set_password (password : String) (salt : List Nat) : CryptoManager × List Nat :=
  (⟨some ⟨password, salt⟩⟩, salt)

/-- Embeds `CryptoManager.encrypt` (lines 43-55): raises (ValueError
"请先设置密码") without a session, otherwise returns the base64url encoding of
the Fernet token over the plaintext with a fresh nonce. -/
def encrypt (cm : CryptoManager) (nonce : Nat) (plaintext : Text) : Except CryptoErr Text :=
  match cm.cipher_suite with
  | none => .error .noSession
  | some k => .ok (.enc k nonce plaintext)

/-- Models whether `base64.urlsafe_b64decode(text)` succeeds.  An encoded
Fernet token always decodes; for an ordinary string Python only rejects inputs
whose length is not a multiple of 4 (incorrect padding).  The exact predicate
on plain strings is immaterial: Fernet authentication rejects any bytes that
did not come from a token, so `decrypt` fails on plain strings either way. -/
def b64_decode_ok : Text → Bool
  | .enc _ _ _ => true
  | .str s => s.length % 4 == 0

/-- Models `Fernet(key).decrypt`: authenticated decryption succeeds exactly on
tokens produced under the same key, and returns their plaintext. -/
def fernet_decrypt (k : FernetKey) : Text → Except CryptoErr Text
  | .enc k2 _ p => if k2 = k then .ok p else .error .decryptionError
  | .str _ => .error .decryptionError

/-- Embeds `CryptoManager.decrypt` (lines 57-73): raises without a session;
otherwise base64-decodes and Fernet-decrypts, turning any failure of either
step into a single `DecryptionError` (ValueError "解密失败: ..."). -/
def decrypt (cm : CryptoManager) (t : Text) : Except CryptoErr Text :=
  match cm.cipher_suite with
  | none => .error .noSession
  | some k =>
    if b64_decode_ok t then fernet_decrypt k t else .error .decryptionError

/-- Embeds `CryptoManager.is_encrypted_text` (lines 75-90): `False` without a
session; otherwise attempts the base64 decode and then a full decrypt inside a
bare `try`, returning `True` exactly when both succeed.  It never raises. -/
def is_encrypted_text (cm : CryptoManager) (t : Text) : Bool :=
  match cm.cipher_suite with
  | none => false
  | some _ =>
    if b64_decode_ok t then
      match decrypt cm t with
      | .ok _ => true
      | .error _ => false
    else false

/-- Helper: decrypting a token under the session that produced it succeeds and
returns the original plaintext. -/
theorem decrypt_enc_self (cm : CryptoManager) (k : FernetKey)
    (h : cm.cipher_suite = some k) (n : Nat) (p : Text) :
    decrypt cm (Text.enc k n p) = Except.ok p := by
  simp [decrypt, h, b64_decode_ok, fernet_decrypt]

/-- Helper: decrypting an ordinary string always fails (no bytes that did not
come from a Fernet token pass authentication). -/
theorem decrypt_str_err (cm : CryptoManager) (s : String) :
    ∀ p, decrypt cm (Text.str s) ≠ Except.ok p := by
  intro p
  unfold decrypt
  cases cm.cipher_suite with
  | none => simp
  | some k =>
    by_cases hb : b64_decode_ok (Text.str s) = true <;>
      simp [hb, fernet_decrypt]

/-- Helper: the detection heuristic returns true exactly when a full decrypt
would succeed. -/
theorem isEncrypted_iff_decrypt_ok (cm : CryptoManager) (t : Text) :
    is_encrypted_text cm t = true ↔ ∃ p, decrypt cm t = Except.ok p := by
  cases h : cm.cipher_suite with
  | none => simp [is_encrypted_text, decrypt, h]
  | some k =>
    by_cases hb : b64_decode_ok t = true
    · cases hd : decrypt cm t with
      | ok p => simp [is_encrypted_text, h, hb, hd]
      | error e => simp [is_encrypted_text, h, hb, hd]
    · have hd : decrypt cm t = Except.error CryptoErr.decryptionError := by
        simp [decrypt, h, hb]
      simp [is_encrypted_text, h, hb, hd]

/-- C1: with a session set, `decrypt` inverts `encrypt` on every plaintext —
the plaintext type `Text` covers the empty string, arbitrarily long strings,
arbitrary Unicode strings (`Text.str`) and even nested envelopes. -/
theorem C1_decrypt_encrypt_roundtrip (cm : CryptoManager) (k : FernetKey)
    (h : cm.cipher_suite = some k) (n : Nat) (p : Text) (e : Text)
    (he : encrypt cm n p = Except.ok e) :
    decrypt cm e = Except.ok p := by
  unfold encrypt at he
  rw [h] at he
  injection he with he
  rw [← he]
  exact decrypt_enc_self cm k h n p

/-- C1 witness: a concrete round trip under the session derived from password
"pw" and salt [1, 2]. -/
theorem C1_decrypt_encrypt_roundtrip_witness :
    decrypt (set_password "pw" [1, 2]).1 (Text.enc ⟨"pw", [1, 2]⟩ 7 (Text.str "hello")) =
      Except.ok (Text.str "hello") :=
  C1_decrypt_encrypt_roundtrip (set_password "pw" [1, 2]).1 ⟨"pw", [1, 2]⟩ rfl 7
    (Text.str "hello") (Text.enc ⟨"pw", [1, 2]⟩ 7 (Text.str "hello")) rfl

/-- C2: `is_encrypted_text` returns true exactly when `decrypt` would succeed
(and, being a total Bool-valued function built from a bare `try`, it never
raises); in particular, under the same session every output of `encrypt` is
detected as encrypted. -/
theorem C2_detection_iff_decrypt (cm : CryptoManager) (t : Text) :
    (is_encrypted_text cm t = true ↔ ∃ p, decrypt cm t = Except.ok p) ∧
    (∀ k n p c, cm.cipher_suite = some k → encrypt cm n p = Except.ok c →
      is_encrypted_text cm c = true) := by
  refine ⟨isEncrypted_iff_decrypt_ok cm t, ?_⟩
  intro k n p c hk he
  unfold encrypt at he
  rw [hk] at he
  injection he with he
  exact (isEncrypted_iff_decrypt_ok cm c).mpr ⟨p, by rw [← he]; exact decrypt_enc_self cm k hk n p⟩

/-- C2 witness: concrete instances of both conjuncts. -/
theorem C2_detection_iff_decrypt_witness :
    (is_encrypted_text (set_password "pw" [1]).1 (Text.str "abcd") = true ↔
      ∃ p, decrypt (set_password "pw" [1]).1 (Text.str "abcd") = Except.ok p) ∧
    is_encrypted_text (set_password "pw" [1]).1 (Text.enc ⟨"pw", [1]⟩ 3 (Text.str "s")) = true :=
  ⟨(C2_detection_iff_decrypt (set_password "pw" [1]).1 (Text.str "abcd")).1,
   (C2_detection_iff_decrypt (set_password "pw" [1]).1 (Text.str "abcd")).2
     ⟨"pw", [1]⟩ 3 (Text.str "s") (Text.enc ⟨"pw", [1]⟩ 3 (Text.str "s")) rfl rfl⟩

/-- C6: a ciphertext produced under `(password P1, salt S)` fails to decrypt,
with `DecryptionError`, under a session derived from the same salt but a
different password; it is never silently decrypted to a wrong plaintext. -/
theorem C6_wrong_password_fails (salt : List Nat) (p1 p2 : String) (n : Nat) (pt c : Text)
    (hne : p1 ≠ p2)
    (he : encrypt (set_password p1 salt).1 n pt = Except.ok c) :
    decrypt (set_password p2 salt).1 c = Except.error CryptoErr.decryptionError := by
  unfold encrypt set_password at he
  simp only at he
  injection he with he
  rw [← he]
  unfold decrypt set_password
  simp only [b64_decode_ok, if_true]
  unfold fernet_decrypt
  have : (⟨p1, salt⟩ : FernetKey) ≠ ⟨p2, salt⟩ := by
    intro hcontra
    exact hne (congrArg FernetKey.password hcontra)
  simp [this]

/-- C6 witness: a concrete ciphertext under password "a" rejected under
password "b" with the same salt. -/
theorem C6_wrong_password_fails_witness :
    decrypt (set_password "b" [5]).1 (Text.enc ⟨"a", [5]⟩ 2 (Text.str "secret")) =
      Except.error CryptoErr.decryptionError :=
  C6_wrong_password_fails [5] "a" "b" 2 (Text.str "secret")
    (Text.enc ⟨"a", [5]⟩ 2 (Text.str "secret")) (by decide) rfl

/-- Mutable state of `ClipboardManager` (clipboard_manager.py lines 17-37).
Python field names carry a leading underscore for the private ones:
`_processing`, `_last_processed_content`, `_ignore_next_change`,
`_processing_start_time`. -/
structure ClipState where
  last_clipboard_content : Text
  encryption_enabled : Bool
  processing : Bool
  last_processed_content : Text
  ignore_next_change : Bool
  processing_start_time : Nat
deriving DecidableEq

/-- Error-message kinds passed to the `on_error` callback (the source formats
Chinese message strings; only the kind matters here). -/
inductive ErrKind where
  | monitorError
  | setClipboardFailed
  | handleChangeFailed
  | autoEncryptFailed
  | clipboardEmpty
  | alreadyEncryptedText
  | notEncryptedText
  | manualEncryptFailed
  | manualDecryptFailed
  | tempDecryptFailed
  | reencryptFailed
  | peekFailed
deriving DecidableEq

/-- Callback events fired by `ClipboardManager`, in firing order.
`tempDecryptionPerformed p d` models `on_decryption_performed` called with the
formatted string "p (临时解密 d秒)", and `reencryptPerformed p` models
`on_encryption_performed` called with "自动重新加密: p[:20]...". -/
inductive Event where
  | clipboardChanged (old new2 : Text)
  | encryptionPerformed (plaintext : Text)
  | decryptionPerformed (plaintext : Text)
  | tempDecryptionPerformed (plaintext : Text) (duration : Nat)
  | reencryptPerformed (plaintext : Text)
  | encryptionStatusChanged (content : Text)
  | error (kind : ErrKind)
deriving DecidableEq

/-- Blank test `not content.strip()` used by the manager: `str.strip()` is
falsy exactly when every character is whitespace; a base64 envelope is never
blank. -/
def Text.isBlank : Text → Bool
  | .str s => s.data.all Char.isWhitespace
  | .enc _ _ _ => false

/-- Embeds `ClipboardManager._get_clipboard_content` (lines 94-100): returns
`pyperclip.paste()` when it succeeds and is non-None, and the empty string when
the call raises (the exception is swallowed, with no `on_error` report). -/
def get_clipboard_content : Except Unit Text → Text
  | .ok t => t
  | .error _ => .str ""

/-- Result of an internal effectful helper: new manager state, the clipboard
write that landed (if any), and the callback events fired, in order. -/
structure EffResult where
  state : ClipState
  write : Option Text
  events : List Event
deriving DecidableEq

/-- Embeds `ClipboardManager._set_clipboard_content` (lines 102-118): sets
`_processing`, `_last_processed_content`, `_processing_start_time` and
`_ignore_next_change`, then calls `pyperclip.copy`.  On success `_processing`
is cleared; on failure (`writeOk = false`) the exception is caught,
`_processing` and `_ignore_next_change` are cleared, `on_error` is called, and
the function returns normally — it never raises. -/
def set_clipboard_content (st : ClipState) (now : Nat) (content : Text) (writeOk : Bool) :
    EffResult :=
  let st1 : ClipState :=
    { st with processing := true, last_processed_content := content,
              processing_start_time := now, ignore_next_change := true }
  if writeOk then
    ⟨{ st1 with processing := false }, some content, []⟩
  else
    ⟨{ st1 with processing := false, ignore_next_change := false }, none,
     [Event.error .setClipboardFailed]⟩

/-- Embeds `ClipboardManager._handle_clipboard_change` (lines 120-146) together
with `_auto_encrypt` (lines 148-159): fires `on_clipboard_changed`; blank
content is left alone; non-encrypted content is auto-encrypted and written back
when `encryption_enabled` (with `on_encryption_performed` fired after the
write helper returns, even if the OS write failed, since the helper swallows
its own errors); already-encrypted content is left untouched, with only the
`on_encryption_status_changed` notification. -/
def handle_clipboard_change (cm : CryptoManager) (st : ClipState) (old newC : Text)
    (now nonce : Nat) (writeOk : Bool) : EffResult :=
  let evs0 := [Event.clipboardChanged old newC]
  if newC.isBlank then ⟨st, none, evs0⟩
  else
    let isEnc := is_encrypted_text cm newC
    if !isEnc && st.encryption_enabled then
      match encrypt cm nonce newC with
      | .error _ => ⟨st, none, evs0 ++ [Event.error .autoEncryptFailed]⟩
      | .ok e =>
        let r := set_clipboard_content st now e writeOk
        ⟨r.state, r.write, evs0 ++ r.events ++ [Event.encryptionPerformed newC]⟩
    else if isEnc then
      ⟨st, none, evs0 ++ [Event.encryptionStatusChanged newC]⟩
    else ⟨st, none, evs0⟩

/-- Condition `should_process` computed at lines 71-77 of the monitor loop. -/
def should_process (st : ClipState) (current : Text) (now : Nat) : Bool :=
  current != st.last_clipboard_content &&
  !st.processing &&
  !st.ignore_next_change &&
  (current != st.last_processed_content ||
    decide (now - st.processing_start_time > 5))

/-- Result of one iteration of the monitor loop: new state, clipboard write,
events, and the sleep (in milliseconds) before the next poll. -/
structure TickResult where
  state : ClipState
  write : Option Text
  events : List Event
  sleep_ms : Nat
deriving DecidableEq

/-- Embeds one iteration of `ClipboardManager._monitor_clipboard`
(lines 66-92).  Reads the clipboard (read failures are swallowed into "");
processes the change when `should_process` holds and then overwrites
`last_clipboard_content` with the observed content; otherwise, when the
ignore flag is set, consumes it and re-syncs the snapshot; otherwise leaves
the state untouched.  Every path sleeps the normal 500 ms: the 1-second
backoff branch (`except` at lines 89-92) is reachable only by an exception
escaping the tick body, and every clipboard failure is already caught inside
`_get_clipboard_content`, `_set_clipboard_content` or
`_handle_clipboard_change`, so the tick itself never raises. -/
def monitor_tick (cm : CryptoManager) (st : ClipState) (now : Nat)
    (readRes : Except Unit Text) (nonce : Nat) (writeOk : Bool) : TickResult :=
  let current := get_clipboard_content readRes
  if should_process st current now then
    let r := handle_clipboard_change cm st st.last_clipboard_content current now nonce writeOk
    ⟨{ r.state with last_clipboard_content := current }, r.write, r.events, 500⟩
  else if st.ignore_next_change then
    ⟨{ st with ignore_next_change := false, last_clipboard_content := current },
     none, [], 500⟩
  else
    ⟨st, none, [], 500⟩

/-- Result of a public manager operation: state, clipboard write, events, and
the Bool the Python function returns. -/
structure OpResult where
  state : ClipState
  write : Option Text
  events : List Event
  ok : Bool
deriving DecidableEq

/-- Embeds `ClipboardManager.manual_encrypt` (lines 174-199). -/
def manual_encrypt (cm : CryptoManager) (st : ClipState) (now : Nat)
    (readRes : Except Unit Text) (nonce : Nat) (writeOk : Bool) : OpResult :=
  let content := get_clipboard_content readRes
  if content.isBlank then ⟨st, none, [Event.error .clipboardEmpty], false⟩
  else if is_encrypted_text cm content then
    ⟨st, none, [Event.error .alreadyEncryptedText], false⟩
  else
    match encrypt cm nonce content with
    | .error _ => ⟨st, none, [Event.error .manualEncryptFailed], false⟩
    | .ok e =>
      let r := set_clipboard_content st now e writeOk
      ⟨r.state, r.write, r.events ++ [Event.encryptionPerformed content], true⟩

/-- Embeds `ClipboardManager.manual_decrypt` (lines 201-226). -/
def manual_decrypt (cm : CryptoManager) (st : ClipState) (now : Nat)
    (readRes : Except Unit Text) (writeOk : Bool) : OpResult :=
  let content := get_clipboard_content readRes
  if content.isBlank then ⟨st, none, [Event.error .clipboardEmpty], false⟩
  else if !is_encrypted_text cm content then
    ⟨st, none, [Event.error .notEncryptedText], false⟩
  else
    match decrypt cm content with
    | .error _ => ⟨st, none, [Event.error .manualDecryptFailed], false⟩
    | .ok d =>
      let r := set_clipboard_content st now d writeOk
      ⟨r.state, r.write, r.events ++ [Event.decryptionPerformed d], true⟩

/-- Pending exposure job armed by `temporary_decrypt`: the closure captured by
the `re_encrypt` thread holds the original envelope, the plaintext that was
written, and the duration to sleep. -/
structure PendingJob where
  duration : Nat
  original_encrypted : Text
  decrypted_text : Text
deriving DecidableEq

/-- Result of `temporary_decrypt`: state, write, events, the armed deferred
job (if any), and the returned Bool. -/
structure TempResult where
  state : ClipState
  write : Option Text
  events : List Event
  job : Option PendingJob
  ok : Bool
deriving DecidableEq

/-- Embeds `ClipboardManager.temporary_decrypt` (lines 228-275) up to starting
the background `re_encrypt` thread, which is returned as the armed job. -/
def temporary_decrypt (cm : CryptoManager) (st : ClipState) (now : Nat)
    (readRes : Except Unit Text) (writeOk : Bool) (duration : Nat) : TempResult :=
  let content := get_clipboard_content readRes
  if content.isBlank then ⟨st, none, [Event.error .clipboardEmpty], none, false⟩
  else if !is_encrypted_text cm content then
    ⟨st, none, [Event.error .notEncryptedText], none, false⟩
  else
    match decrypt cm content with
    | .error _ => ⟨st, none, [Event.error .tempDecryptFailed], none, false⟩
    | .ok d =>
      let r := set_clipboard_content st now d writeOk
      ⟨r.state, r.write, r.events ++ [Event.tempDecryptionPerformed d duration],
       some ⟨duration, content, d⟩, true⟩

/-- Embeds the body of the deferred `re_encrypt` closure inside
`temporary_decrypt` (lines 253-264), run after `duration` has elapsed: re-read
the clipboard; only when it still equals the plaintext written at arm time,
write the original envelope back (re-registering with the guard flags) and
fire `on_encryption_performed`; otherwise do nothing. -/
def re_encrypt_fire (st : ClipState) (now : Nat) (job : PendingJob)
    (readRes : Except Unit Text) (writeOk : Bool) : EffResult :=
  let current := get_clipboard_content readRes
  if current = job.decrypted_text then
    let r := set_clipboard_content st now job.original_encrypted writeOk
    ⟨r.state, r.write, r.events ++ [Event.reencryptPerformed job.decrypted_text]⟩
  else ⟨st, none, []⟩

/-- Result of `peek_decrypt`: clipboard write (always none), events, and the
returned string. -/
structure PeekResult where
  write : Option Text
  events : List Event
  result : Text
deriving DecidableEq

/-- Embeds `ClipboardManager.peek_decrypt` (lines 277-294): read-only preview.
Blank content yields ""; content not detected as encrypted is returned
unchanged; an envelope is decrypted and the plaintext returned; any exception
is caught, reported via `on_error`, and "" returned. -/
def peek_decrypt (cm : CryptoManager) (readRes : Except Unit Text) : PeekResult :=
  let content := get_clipboard_content readRes
  if content.isBlank then ⟨none, [], .str ""⟩
  else if !is_encrypted_text cm content then ⟨none, [], content⟩
  else
    match decrypt cm content with
    | .ok d => ⟨none, [], d⟩
    | .error _ => ⟨none, [Event.error .peekFailed], .str ""⟩

/-- Embeds `CryptoClipboardCLI.temporary_decrypt_with_duration`
(cli_main.py lines 303-314): requires a password to be set, rejects a duration
outside the closed interval [5, 300] before any effect, and otherwise defers
to `ClipboardManager.temporary_decrypt`. -/
def temporary_decrypt_with_duration (password_set : Bool) (cm : CryptoManager)
    (st : ClipState) (now : Nat) (readRes : Except Unit Text) (writeOk : Bool)
    (duration : Nat) : TempResult :=
  if !password_set then ⟨st, none, [], none, false⟩
  else if 5 ≤ duration ∧ duration ≤ 300 then
    temporary_decrypt cm st now readRes writeOk duration
  else ⟨st, none, [], none, false⟩

/-- Embeds the `AppSettings.temporary_decrypt_duration` setter
(config_manager.py lines 257-263): persists the value when it lies in
[5, 300] and raises `ValueError` otherwise. -/
def set_temporary_decrypt_duration (value : Nat) : Except Unit Nat :=
  if 5 ≤ value ∧ value ≤ 300 then .ok value else .error ()

/-- Helper: under a session, the detection heuristic accepts every envelope
produced under that session's key. -/
theorem isEncrypted_enc_self (cm : CryptoManager) (k : FernetKey)
    (h : cm.cipher_suite = some k) (n : Nat) (p : Text) :
    is_encrypted_text cm (Text.enc k n p) = true :=
  (isEncrypted_iff_decrypt_ok cm (Text.enc k n p)).mpr ⟨p, decrypt_enc_self cm k h n p⟩

/-- Helper: the detection heuristic rejects every ordinary string (only
authenticated tokens decrypt). -/
theorem isEncrypted_str (cm : CryptoManager) (s : String) :
    is_encrypted_text cm (Text.str s) = false := by
  cases h : is_encrypted_text cm (Text.str s) with
  | false => rfl
  | true =>
    obtain ⟨p, hp⟩ := (isEncrypted_iff_decrypt_ok cm (Text.str s)).mp h
    exact absurd hp (decrypt_str_err cm s p)

/-- Helper: `temporary_decrypt` on a clipboard holding a valid envelope of the
current session decrypts it, writes the plaintext, fires the notification, and
arms the deferred job remembering the envelope and the written plaintext. -/
theorem temporary_decrypt_env (cm : CryptoManager) (k : FernetKey)
    (h : cm.cipher_suite = some k) (st : ClipState) (now n : Nat) (p : Text)
    (writeOk : Bool) (d : Nat) :
    temporary_decrypt cm st now (Except.ok (Text.enc k n p)) writeOk d =
      ⟨(set_clipboard_content st now p writeOk).state,
       (set_clipboard_content st now p writeOk).write,
       (set_clipboard_content st now p writeOk).events ++
         [Event.tempDecryptionPerformed p d],
       some ⟨d, Text.enc k n p, p⟩, true⟩ := by
  have hie := isEncrypted_enc_self cm k h n p
  have hdec := decrypt_enc_self cm k h n p
  simp [temporary_decrypt, get_clipboard_content, Text.isBlank, hie, hdec]

/-- Concrete monitor state for the C3 counterexample: another thread is inside
`_set_clipboard_content` (so `_processing = true`, which the source reaches in
`temporary_decrypt` and the manual operations, all of which run off the
monitor thread), the previous snapshot is "a", and the clipboard reads "b". -/
def stC3 : ClipState :=
  { last_clipboard_content := Text.str "a", encryption_enabled := true,
    processing := true, last_processed_content := Text.str "",
    ignore_next_change := false, processing_start_time := 0 }

/-- C3 counterexample: the claim says `last_clipboard_content` is updated to
the observed content C unconditionally at the end of every tick; on this tick
(observed "b", snapshot "a", `_processing` set) the snapshot remains "a". -/
theorem C3_snapshot_not_unconditional :
    (monitor_tick ⟨none⟩ stC3 0 (Except.ok (Text.str "b")) 0 true).state.last_clipboard_content
        = Text.str "a" ∧
    Text.str "a" ≠ Text.str "b" :=
  ⟨rfl, by decide⟩

/-- C3 amended: the snapshot is updated to the observed content exactly when
the tick processes the change or consumes the ignore flag; when
`should_process` is false and the flag is clear, the whole state — snapshot
included — is left unchanged, so the same content transition can be evaluated
again on the next tick. -/
theorem C3_amended_snapshot_update (cm : CryptoManager) (st : ClipState) (now : Nat)
    (readRes : Except Unit Text) (nonce : Nat) (writeOk : Bool) :
    (should_process st (get_clipboard_content readRes) now = true →
      (monitor_tick cm st now readRes nonce writeOk).state.last_clipboard_content =
        get_clipboard_content readRes) ∧
    (st.ignore_next_change = true →
      (monitor_tick cm st now readRes nonce writeOk).state.last_clipboard_content =
        get_clipboard_content readRes) ∧
    (should_process st (get_clipboard_content readRes) now = false →
      st.ignore_next_change = false →
      (monitor_tick cm st now readRes nonce writeOk).state = st) := by
  refine ⟨?_, ?_, ?_⟩
  · intro h
    simp [monitor_tick, h]
  · intro h
    have hsp : should_process st (get_clipboard_content readRes) now = false := by
      simp [should_process, h]
    simp [monitor_tick, hsp, h]
  · intro hsp hig
    simp [monitor_tick, hsp, hig]

/-- C3 amended witness: the concrete unprocessed tick of the counterexample
leaves the state, snapshot included, unchanged. -/
theorem C3_amended_snapshot_update_witness :
    (monitor_tick ⟨none⟩ stC3 0 (Except.ok (Text.str "b")) 0 true).state = stC3 :=
  (C3_amended_snapshot_update ⟨none⟩ stC3 0 (Except.ok (Text.str "b")) 0 true).2.2
    (by decide) (by decide)

/-- Session key for the C4 counterexample. -/
def kC4 : FernetKey := ⟨"pw", [3]⟩

/-- Crypto manager for the C4 counterexample, with a session set. -/
def cmC4 : CryptoManager := (set_password "pw" [3]).1

/-- Monitor state for the C4 counterexample: `_set_clipboard_content` has just
returned from writing an envelope (so `_ignore_next_change = true` and
`_last_processed_content` holds that envelope), but the OS clipboard still
reads the stale previous content "a" — the 0.2 s sleep in the source exists
precisely because the OS write can lag `pyperclip.copy`. -/
def stC4 : ClipState :=
  { last_clipboard_content := Text.str "a", encryption_enabled := true,
    processing := false, last_processed_content := Text.enc kC4 9 (Text.str "x"),
    ignore_next_change := true, processing_start_time := 0 }

/-- First tick of the C4 counterexample run: the clipboard still reads the
unchanged "a". -/
def tickC4a : TickResult := monitor_tick cmC4 stC4 0 (Except.ok (Text.str "a")) 0 true

/-- C4 counterexample: the claim says that once the flag is set exactly one
subsequent observed clipboard change is skipped.  Here the tick after the flag
was set observes no change at all, yet consumes the flag; the next observed
change ("b") is then processed (auto-encrypted and written back), so zero
subsequent observed changes were skipped. -/
theorem C4_flag_consumed_without_skip :
    tickC4a.state.ignore_next_change = false ∧
    tickC4a.events = [] ∧
    (monitor_tick cmC4 tickC4a.state 1 (Except.ok (Text.str "b")) 5 true).write =
      some (Text.enc ⟨"pw", [3]⟩ 5 (Text.str "b")) :=
  ⟨rfl, rfl, rfl⟩

/-- C4 amended: once the flag is set it is consumed on the very next monitor
tick, whether or not that tick observes a change: that tick never processes
the observed content (no events, no write), clears the flag, and resyncs the
snapshot to the observed content; so at most one observed change is skipped,
and later changes are processed normally. -/
theorem C4_amended_ignore_consumed_next_tick (cm : CryptoManager) (st : ClipState)
    (now : Nat) (readRes : Except Unit Text) (nonce : Nat) (writeOk : Bool)
    (h : st.ignore_next_change = true) :
    (monitor_tick cm st now readRes nonce writeOk).state.ignore_next_change = false ∧
    (monitor_tick cm st now readRes nonce writeOk).state.last_clipboard_content =
      get_clipboard_content readRes ∧
    (monitor_tick cm st now readRes nonce writeOk).write = none ∧
    (monitor_tick cm st now readRes nonce writeOk).events = [] := by
  have hsp : should_process st (get_clipboard_content readRes) now = false := by
    simp [should_process, h]
  simp [monitor_tick, hsp, h]

/-- C4 amended witness: a concrete tick with the flag set consumes it, skips
processing, and resyncs the snapshot. -/
theorem C4_amended_ignore_consumed_next_tick_witness :
    (monitor_tick cmC4 stC4 3 (Except.ok (Text.str "z")) 0 true).state.ignore_next_change = false ∧
    (monitor_tick cmC4 stC4 3 (Except.ok (Text.str "z")) 0 true).state.last_clipboard_content =
      Text.str "z" ∧
    (monitor_tick cmC4 stC4 3 (Except.ok (Text.str "z")) 0 true).write = none ∧
    (monitor_tick cmC4 stC4 3 (Except.ok (Text.str "z")) 0 true).events = [] :=
  C4_amended_ignore_consumed_next_tick cmC4 stC4 3 (Except.ok (Text.str "z")) 0 true rfl

/-- C5: when the deferred exposure job fires (with a working clipboard), it
writes the original envelope back exactly when the clipboard still equals the
plaintext written at arm time; otherwise it performs no write, fires no event,
and leaves the manager state untouched. -/
theorem C5_revert_iff_untouched (st : ClipState) (now : Nat) (job : PendingJob)
    (readRes : Except Unit Text) :
    ((re_encrypt_fire st now job readRes true).write = some job.original_encrypted ↔
      get_clipboard_content readRes = job.decrypted_text) ∧
    (get_clipboard_content readRes ≠ job.decrypted_text →
      re_encrypt_fire st now job readRes true = ⟨st, none, []⟩) := by
  by_cases hc : get_clipboard_content readRes = job.decrypted_text
  · refine ⟨?_, fun h => absurd hc h⟩
    simp [re_encrypt_fire, hc, set_clipboard_content]
  · refine ⟨?_, fun _ => ?_⟩ <;> simp [re_encrypt_fire, hc]

/-- Manager state in which the C5 witness job fires. -/
def stC5 : ClipState :=
  { last_clipboard_content := Text.str "s", encryption_enabled := true,
    processing := false, last_processed_content := Text.str "s",
    ignore_next_change := false, processing_start_time := 0 }

/-- C5 witness: a concrete fired job whose clipboard was overwritten by the
user does nothing; the iff instance is also recorded. -/
theorem C5_revert_iff_untouched_witness :
    ((re_encrypt_fire stC5 0 ⟨5, Text.enc ⟨"p", [1]⟩ 0 (Text.str "s"), Text.str "s"⟩
        (Except.ok (Text.str "other")) true).write =
      some (Text.enc ⟨"p", [1]⟩ 0 (Text.str "s")) ↔
      get_clipboard_content (Except.ok (Text.str "other")) = Text.str "s") ∧
    re_encrypt_fire stC5 0 ⟨5, Text.enc ⟨"p", [1]⟩ 0 (Text.str "s"), Text.str "s"⟩
        (Except.ok (Text.str "other")) true = ⟨stC5, none, []⟩ :=
  ⟨(C5_revert_iff_untouched stC5 0 ⟨5, Text.enc ⟨"p", [1]⟩ 0 (Text.str "s"), Text.str "s"⟩
      (Except.ok (Text.str "other"))).1,
   (C5_revert_iff_untouched stC5 0 ⟨5, Text.enc ⟨"p", [1]⟩ 0 (Text.str "s"), Text.str "s"⟩
      (Except.ok (Text.str "other"))).2 (by decide)⟩

/-- Helper: a Bool that is not true is false. -/
theorem bool_not_true {b : Bool} (h : ¬ b = true) : b = false := by
  cases hb : b with
  | false => rfl
  | true => exact absurd hb h

/-- C7: the CLI's `temporary_decrypt_with_duration` rejects durations 4 and
301 with no effect whatsoever (no write, no event, no armed job, `False`
returned), accepts 5 and 300 (succeeding and arming the job when the clipboard
holds a valid envelope of the current session), and the configuration setter
enforces the same closed interval [5, 300]. -/
theorem C7_duration_boundaries (cm : CryptoManager) (k : FernetKey)
    (h : cm.cipher_suite = some k) (st : ClipState) (now n : Nat) (p : Text) :
    temporary_decrypt_with_duration true cm st now (Except.ok (Text.enc k n p)) true 4 =
      ⟨st, none, [], none, false⟩ ∧
    temporary_decrypt_with_duration true cm st now (Except.ok (Text.enc k n p)) true 301 =
      ⟨st, none, [], none, false⟩ ∧
    (temporary_decrypt_with_duration true cm st now (Except.ok (Text.enc k n p)) true 5).ok =
      true ∧
    (temporary_decrypt_with_duration true cm st now (Except.ok (Text.enc k n p)) true 5).job =
      some ⟨5, Text.enc k n p, p⟩ ∧
    (temporary_decrypt_with_duration true cm st now (Except.ok (Text.enc k n p)) true 300).ok =
      true ∧
    set_temporary_decrypt_duration 4 = Except.error () ∧
    set_temporary_decrypt_duration 301 = Except.error () ∧
    set_temporary_decrypt_duration 5 = Except.ok 5 ∧
    set_temporary_decrypt_duration 300 = Except.ok 300 := by
  have h5 : temporary_decrypt_with_duration true cm st now
      (Except.ok (Text.enc k n p)) true 5 =
      temporary_decrypt cm st now (Except.ok (Text.enc k n p)) true 5 := rfl
  have h300 : temporary_decrypt_with_duration true cm st now
      (Except.ok (Text.enc k n p)) true 300 =
      temporary_decrypt cm st now (Except.ok (Text.enc k n p)) true 300 := rfl
  refine ⟨rfl, rfl, ?_, ?_, ?_, rfl, rfl, rfl, rfl⟩
  · rw [h5, temporary_decrypt_env cm k h st now n p true 5]
  · rw [h5, temporary_decrypt_env cm k h st now n p true 5]
  · rw [h300, temporary_decrypt_env cm k h st now n p true 300]

/-- Session manager for the C7 witness. -/
def cmC7 : CryptoManager := (set_password "pw" [7]).1

/-- Manager state for the C7 witness. -/
def stC7 : ClipState :=
  { last_clipboard_content := Text.str "", encryption_enabled := false,
    processing := false, last_processed_content := Text.str "",
    ignore_next_change := false, processing_start_time := 0 }

/-- C7 witness: concrete rejection at duration 4 and acceptance at 5. -/
theorem C7_duration_boundaries_witness :
    temporary_decrypt_with_duration true cmC7 stC7 0
      (Except.ok (Text.enc ⟨"pw", [7]⟩ 1 (Text.str "s"))) true 4 =
      ⟨stC7, none, [], none, false⟩ ∧
    (temporary_decrypt_with_duration true cmC7 stC7 0
      (Except.ok (Text.enc ⟨"pw", [7]⟩ 1 (Text.str "s"))) true 5).ok = true :=
  ⟨(C7_duration_boundaries cmC7 ⟨"pw", [7]⟩ rfl stC7 0 1 (Text.str "s")).1,
   (C7_duration_boundaries cmC7 ⟨"pw", [7]⟩ rfl stC7 0 1 (Text.str "s")).2.2.1⟩

/-- Monitor state for the C8 counterexample: the idle steady state right after
start-up. -/
def stC8 : ClipState :=
  { last_clipboard_content := Text.str "", encryption_enabled := true,
    processing := false, last_processed_content := Text.str "",
    ignore_next_change := false, processing_start_time := 0 }

/-- C8 counterexample: the claim says every clipboard read failure in the
monitor loop is reported via `on_error` and followed by a 1-second backoff; on
this tick the read raises, yet no event at all is fired and the loop sleeps
the normal 500 ms (`_get_clipboard_content` swallows the exception into "", so
the loop's `except` branch with the 1 s sleep is never reached). -/
theorem C8_read_failure_silent :
    (monitor_tick ⟨none⟩ stC8 0 (Except.error ()) 0 true).events = [] ∧
    (monitor_tick ⟨none⟩ stC8 0 (Except.error ()) 0 true).sleep_ms = 500 :=
  ⟨rfl, rfl⟩

/-- C8 amended: clipboard failures never terminate or even slow the monitor,
but they are not surfaced the way the claim says: a read failure is silently
converted to empty-string content (a failing read tick is indistinguishable
from a tick that read ""), a write failure is caught inside
`_set_clipboard_content` and reported via `on_error` with no write landing,
and in every case the loop proceeds at the normal 500 ms interval — the
1-second backoff branch is unreachable for clipboard I/O failures. -/
theorem C8_amended_failures_contained (cm : CryptoManager) (st : ClipState) (now : Nat)
    (readRes : Except Unit Text) (nonce : Nat) (writeOk : Bool) (content : Text) :
    (monitor_tick cm st now readRes nonce writeOk).sleep_ms = 500 ∧
    monitor_tick cm st now (Except.error ()) nonce writeOk =
      monitor_tick cm st now (Except.ok (Text.str "")) nonce writeOk ∧
    (set_clipboard_content st now content false).write = none ∧
    (set_clipboard_content st now content false).events =
      [Event.error ErrKind.setClipboardFailed] := by
  refine ⟨?_, rfl, rfl, rfl⟩
  by_cases h1 : should_process st (get_clipboard_content readRes) now = true
  · simp [monitor_tick, h1]
  · by_cases h2 : st.ignore_next_change = true
    · simp [monitor_tick, h1, h2]
    · simp [monitor_tick, h1, h2]

/-- Crypto manager for the C9 counterexample, with a session set. -/
def cmC9 : CryptoManager := (set_password "pw" [9]).1

/-- C9 counterexample: the claim says `peek_decrypt` returns the empty string
on decryption error; for clipboard content "hello" (whose decryption fails)
it returns "hello" itself, not "". -/
theorem C9_peek_returns_content_not_empty :
    decrypt cmC9 (Text.str "hello") = Except.error CryptoErr.decryptionError ∧
    (peek_decrypt cmC9 (Except.ok (Text.str "hello"))).result = Text.str "hello" ∧
    Text.str "hello" ≠ Text.str "" :=
  ⟨rfl, rfl, by decide⟩

/-- Helper: `peek_decrypt` performs no clipboard write on any path. -/
theorem peek_decrypt_write_none (cm : CryptoManager) (readRes : Except Unit Text) :
    (peek_decrypt cm readRes).write = none := by
  by_cases hb : (get_clipboard_content readRes).isBlank = true
  · simp [peek_decrypt, hb]
  · by_cases hie : is_encrypted_text cm (get_clipboard_content readRes) = true
    · cases hd : decrypt cm (get_clipboard_content readRes) with
      | ok p => simp [peek_decrypt, hb, hie, hd]
      | error e => simp [peek_decrypt, hb, hie, hd]
    · simp [peek_decrypt, hb, bool_not_true hie]

/-- C9 amended: `peek_decrypt` never writes the clipboard and never
propagates an error, but on undecryptable content it does not return "":
blank content yields "", content not recognized as encrypted (everything
whose decryption would fail) is returned unchanged, and a valid envelope is
returned decrypted. -/
theorem C9_amended_peek_readonly (cm : CryptoManager) (readRes : Except Unit Text) :
    (peek_decrypt cm readRes).write = none ∧
    ((get_clipboard_content readRes).isBlank = true →
      (peek_decrypt cm readRes).result = Text.str "") ∧
    (is_encrypted_text cm (get_clipboard_content readRes) = false →
      (get_clipboard_content readRes).isBlank = false →
      (peek_decrypt cm readRes).result = get_clipboard_content readRes) ∧
    (is_encrypted_text cm (get_clipboard_content readRes) = true →
      ∃ p, decrypt cm (get_clipboard_content readRes) = Except.ok p ∧
        (peek_decrypt cm readRes).result = p) := by
  refine ⟨peek_decrypt_write_none cm readRes, ?_, ?_, ?_⟩
  · intro hb
    simp [peek_decrypt, hb]
  · intro hie hb
    simp [peek_decrypt, hb, hie]
  · intro hie
    obtain ⟨p, hp⟩ := (isEncrypted_iff_decrypt_ok cm _).mp hie
    have hb : (get_clipboard_content readRes).isBlank = false := by
      cases hcontent : get_clipboard_content readRes with
      | str s =>
        rw [hcontent] at hie
        rw [isEncrypted_str] at hie
        cases hie
      | enc k2 n2 p2 => simp [Text.isBlank]
    exact ⟨p, hp, by simp [peek_decrypt, hb, hie, hp]⟩

/-- C9 amended witness: concrete instances — write is none, and
unrecognized content "hello" comes back unchanged. -/
theorem C9_amended_peek_readonly_witness :
    (peek_decrypt cmC9 (Except.ok (Text.str "hello"))).write = none ∧
    (peek_decrypt cmC9 (Except.ok (Text.str "hello"))).result = Text.str "hello" :=
  ⟨(C9_amended_peek_readonly cmC9 (Except.ok (Text.str "hello"))).1,
   (C9_amended_peek_readonly cmC9 (Except.ok (Text.str "hello"))).2.2.1
     (by decide) (by decide)⟩

/-- Crypto manager for the C10 counterexample, with a session set. -/
def cmC10 : CryptoManager := (set_password "pw" [4]).1

/-- Manager state for the C10 counterexample. -/
def stC10 : ClipState :=
  { last_clipboard_content := Text.str "", encryption_enabled := false,
    processing := false, last_processed_content := Text.str "",
    ignore_next_change := false, processing_start_time := 0 }

/-- C10 counterexample: the claim says every failure path, including a
clipboard I/O error, is converted into a False or empty-string return; here
the `pyperclip.copy` inside `manual_encrypt` fails (reported via `on_error`,
nothing written), yet the call still returns True. -/
theorem C10_write_failure_returns_true :
    (manual_encrypt cmC10 stC10 0 (Except.ok (Text.str "hi")) 0 false).ok = true ∧
    (manual_encrypt cmC10 stC10 0 (Except.ok (Text.str "hi")) 0 false).write = none ∧
    (manual_encrypt cmC10 stC10 0 (Except.ok (Text.str "hi")) 0 false).events =
      [Event.error ErrKind.setClipboardFailed,
       Event.encryptionPerformed (Text.str "hi")] :=
  ⟨rfl, rfl, rfl⟩

/-- Helper: whenever `manual_encrypt` returns False it has performed no
clipboard write and left the manager state untouched. -/
theorem manual_encrypt_false_frame (cm : CryptoManager) (st : ClipState) (now : Nat)
    (readRes : Except Unit Text) (nonce : Nat) (writeOk : Bool)
    (h : (manual_encrypt cm st now readRes nonce writeOk).ok = false) :
    (manual_encrypt cm st now readRes nonce writeOk).write = none ∧
    (manual_encrypt cm st now readRes nonce writeOk).state = st := by
  by_cases hb : (get_clipboard_content readRes).isBlank = true
  · simp [manual_encrypt, hb]
  · by_cases hie : is_encrypted_text cm (get_clipboard_content readRes) = true
    · simp [manual_encrypt, hb, hie]
    · cases henc : encrypt cm nonce (get_clipboard_content readRes) with
      | error e => simp [manual_encrypt, hb, bool_not_true hie, henc]
      | ok e =>
        exfalso
        have hok : (manual_encrypt cm st now readRes nonce writeOk).ok = true := by
          simp [manual_encrypt, hb, bool_not_true hie, henc]
        rw [hok] at h
        cases h

/-- Helper: whenever `manual_decrypt` returns False it has performed no
clipboard write and left the manager state untouched. -/
theorem manual_decrypt_false_frame (cm : CryptoManager) (st : ClipState) (now : Nat)
    (readRes : Except Unit Text) (writeOk : Bool)
    (h : (manual_decrypt cm st now readRes writeOk).ok = false) :
    (manual_decrypt cm st now readRes writeOk).write = none ∧
    (manual_decrypt cm st now readRes writeOk).state = st := by
  by_cases hb : (get_clipboard_content readRes).isBlank = true
  · simp [manual_decrypt, hb]
  · by_cases hie : is_encrypted_text cm (get_clipboard_content readRes) = true
    · cases hd : decrypt cm (get_clipboard_content readRes) with
      | error e => simp [manual_decrypt, hb, hie, hd]
      | ok d =>
        exfalso
        have hok : (manual_decrypt cm st now readRes writeOk).ok = true := by
          simp [manual_decrypt, hb, hie, hd]
        rw [hok] at h
        cases h
    · simp [manual_decrypt, hb, bool_not_true hie]

/-- Helper: whenever `temporary_decrypt` returns False it has performed no
clipboard write, armed no job, and left the manager state untouched. -/
theorem temporary_decrypt_false_frame (cm : CryptoManager) (st : ClipState) (now : Nat)
    (readRes : Except Unit Text) (writeOk : Bool) (d : Nat)
    (h : (temporary_decrypt cm st now readRes writeOk d).ok = false) :
    (temporary_decrypt cm st now readRes writeOk d).write = none ∧
    (temporary_decrypt cm st now readRes writeOk d).job = none ∧
    (temporary_decrypt cm st now readRes writeOk d).state = st := by
  by_cases hb : (get_clipboard_content readRes).isBlank = true
  · simp [temporary_decrypt, hb]
  · by_cases hie : is_encrypted_text cm (get_clipboard_content readRes) = true
    · cases hd : decrypt cm (get_clipboard_content readRes) with
      | error e => simp [temporary_decrypt, hb, hie, hd]
      | ok d2 =>
        exfalso
        have hok : (temporary_decrypt cm st now readRes writeOk d).ok = true := by
          simp [temporary_decrypt, hb, hie, hd]
        rw [hok] at h
        cases h
    · simp [temporary_decrypt, hb, bool_not_true hie]

/-- Helper: with a failing clipboard write no content lands for
`manual_encrypt`. -/
theorem manual_encrypt_writeFail_none (cm : CryptoManager) (st : ClipState) (now : Nat)
    (readRes : Except Unit Text) (nonce : Nat) :
    (manual_encrypt cm st now readRes nonce false).write = none := by
  by_cases hb : (get_clipboard_content readRes).isBlank = true
  · simp [manual_encrypt, hb]
  · by_cases hie : is_encrypted_text cm (get_clipboard_content readRes) = true
    · simp [manual_encrypt, hb, hie]
    · cases henc : encrypt cm nonce (get_clipboard_content readRes) with
      | error e => simp [manual_encrypt, hb, bool_not_true hie, henc]
      | ok e => simp [manual_encrypt, hb, bool_not_true hie, henc, set_clipboard_content]

/-- Helper: with a failing clipboard write no content lands for
`manual_decrypt`. -/
theorem manual_decrypt_writeFail_none (cm : CryptoManager) (st : ClipState) (now : Nat)
    (readRes : Except Unit Text) :
    (manual_decrypt cm st now readRes false).write = none := by
  by_cases hb : (get_clipboard_content readRes).isBlank = true
  · simp [manual_decrypt, hb]
  · by_cases hie : is_encrypted_text cm (get_clipboard_content readRes) = true
    · cases hd : decrypt cm (get_clipboard_content readRes) with
      | error e => simp [manual_decrypt, hb, hie, hd]
      | ok d => simp [manual_decrypt, hb, hie, hd, set_clipboard_content]
    · simp [manual_decrypt, hb, bool_not_true hie]

/-- Helper: with a failing clipboard write no content lands for
`temporary_decrypt`. -/
theorem temporary_decrypt_writeFail_none (cm : CryptoManager) (st : ClipState) (now : Nat)
    (readRes : Except Unit Text) (d : Nat) :
    (temporary_decrypt cm st now readRes false d).write = none := by
  by_cases hb : (get_clipboard_content readRes).isBlank = true
  · simp [temporary_decrypt, hb]
  · by_cases hie : is_encrypted_text cm (get_clipboard_content readRes) = true
    · cases hd : decrypt cm (get_clipboard_content readRes) with
      | error e => simp [temporary_decrypt, hb, hie, hd]
      | ok d2 => simp [temporary_decrypt, hb, hie, hd, set_clipboard_content]
    · simp [temporary_decrypt, hb, bool_not_true hie]

/-- C10 amended: no public operation raises (all four are total functions of
their inputs); whenever an operation returns False it has performed no
clipboard write, armed no job, and left the manager state untouched — but a
clipboard write failure is only reported via `on_error` while the operation
still returns True (with no content actually landing), and `peek_decrypt`
never writes at all. -/
theorem C10_amended_failure_frames (cm : CryptoManager) (st : ClipState) (now : Nat)
    (readRes : Except Unit Text) (nonce : Nat) (writeOk : Bool) (d : Nat) :
    ((manual_encrypt cm st now readRes nonce writeOk).ok = false →
      (manual_encrypt cm st now readRes nonce writeOk).write = none ∧
      (manual_encrypt cm st now readRes nonce writeOk).state = st) ∧
    ((manual_decrypt cm st now readRes writeOk).ok = false →
      (manual_decrypt cm st now readRes writeOk).write = none ∧
      (manual_decrypt cm st now readRes writeOk).state = st) ∧
    ((temporary_decrypt cm st now readRes writeOk d).ok = false →
      (temporary_decrypt cm st now readRes writeOk d).write = none ∧
      (temporary_decrypt cm st now readRes writeOk d).job = none ∧
      (temporary_decrypt cm st now readRes writeOk d).state = st) ∧
    (peek_decrypt cm readRes).write = none ∧
    (manual_encrypt cm st now readRes nonce false).write = none ∧
    (manual_decrypt cm st now readRes false).write = none ∧
    (temporary_decrypt cm st now readRes false d).write = none :=
  ⟨manual_encrypt_false_frame cm st now readRes nonce writeOk,
   manual_decrypt_false_frame cm st now readRes writeOk,
   temporary_decrypt_false_frame cm st now readRes writeOk d,
   peek_decrypt_write_none cm readRes,
   manual_encrypt_writeFail_none cm st now readRes nonce,
   manual_decrypt_writeFail_none cm st now readRes,
   temporary_decrypt_writeFail_none cm st now readRes d⟩

/-- C10 amended witness: with a blank clipboard the failing `manual_encrypt`
and `temporary_decrypt` leave everything untouched. -/
theorem C10_amended_failure_frames_witness :
    (manual_encrypt cmC10 stC10 0 (Except.ok (Text.str "")) 0 true).write = none ∧
    (temporary_decrypt cmC10 stC10 0 (Except.ok (Text.str "")) true 7).job = none :=
  ⟨((C10_amended_failure_frames cmC10 stC10 0 (Except.ok (Text.str "")) 0 true 7).1
      (by decide)).1,
   ((C10_amended_failure_frames cmC10 stC10 0 (Except.ok (Text.str "")) 0 true 7).2.2.1
      (by decide)).2.1⟩

end CryptoClipboard
